import Mathlib

/-!
Verification of the cloud-FinOps billing pipeline.

This file shallowly embeds the parts of the repository that the verified
properties talk about:

* `AWSCostManager` — the Cost Explorer billing client
  (src/utils/aws_cost_manager.py).  The provider response is modelled as
  explicit data (`CEBucket`); the flattening loops become pure functions.
* the forecast display's percent-change computation (src/app/app.py,
  `display_forecast`).
* the three analysis backends (src/utils/local_llm_manager.py,
  src/utils/github_openai_manager.py, src/utils/azure_openai_manager.py).
  Network and model-loading outcomes are passed in as `Except` values;
  a constructor that raises is modelled as returning `Except.error`.
* the persistence layer `DataAccess` (src/database/data_access.py) over the
  ORM rows of src/database/models.py.  The SQLAlchemy session is modelled as
  a committed list plus a pending list; a failing underlying query is
  modelled as an `Except.error` query result.

Dates and timestamps are modelled as `Nat` (day ordinals / monotone clock
ticks); monetary amounts as `Rat`.
-/

namespace AWSCostManager

/-- One grouping bucket of a Cost Explorer response, for a query grouped by
two dimensions (SERVICE, USAGE_TYPE): the two positional keys, the
UnblendedCost amount and unit, and the UsageQuantity amount
(cf. get_detailed_cost_data in src/utils/aws_cost_manager.py). -/
structure DetailGroup where
  serviceKey : String
  usageKey : String
  amount : Rat
  unit : String
  usageAmount : Rat
deriving Repr, DecidableEq

/-- One grouping bucket of a Cost Explorer response grouped by a single
dimension (SERVICE or REGION): the positional key plus the UnblendedCost
amount and unit (cf. get_cost_by_service / get_cost_by_region). -/
structure SingleGroup where
  key : String
  amount : Rat
  unit : String
deriving Repr, DecidableEq

/-- One entry of ResultsByTime: a time period with its grouping buckets. -/
structure CEBucket (γ : Type) where
  periodStart : Nat
  periodEnd : Nat
  groups : List γ
deriving Repr, DecidableEq

/-- One record emitted by get_detailed_cost_data: the bucket's period dates
and the group's keys and metrics, copied through unchanged. -/
structure DetailedCostRecord where
  start_date : Nat
  end_date : Nat
  service : String
  usage_type : String
  cost : Rat
  usage_quantity : Rat
  currency : String
deriving Repr, DecidableEq

/-- One record emitted by get_cost_by_service: the bucket's start date and
the group's service key and cost metric. -/
structure ServiceCostRecord where
  date : Nat
  service : String
  cost : Rat
  currency : String
deriving Repr, DecidableEq

/-- Embedding of AWSCostManager.get_detailed_cost_data
(src/utils/aws_cost_manager.py lines 151-212): for every time period of the
response and every group in it, emit one record carrying the period's start
and end dates and the group's keys, cost, usage and currency.  The function
performs no validation or clamping of the provider's values. -/
def get_detailed_cost_data (resp : List (CEBucket DetailGroup)) :
    List DetailedCostRecord :=
  (resp.map (fun tp => tp.groups.map (fun g =>
    { start_date := tp.periodStart
      end_date := tp.periodEnd
      service := g.serviceKey
      usage_type := g.usageKey
      cost := g.amount
      usage_quantity := g.usageAmount
      currency := g.unit }))).flatten

/-- Embedding of AWSCostManager.get_cost_by_service
(src/utils/aws_cost_manager.py lines 49-98): one record per
(time-period, service-group) pair, values copied through unchanged. -/
def get_cost_by_service (resp : List (CEBucket SingleGroup)) :
    List ServiceCostRecord :=
  (resp.map (fun tp => tp.groups.map (fun g =>
    { date := tp.periodStart
      service := g.key
      cost := g.amount
      currency := g.unit }))).flatten

end AWSCostManager

namespace ForecastDisplay

/-- Total of the trailing-period costs, as computed in display_forecast
(src/app/app.py): sum of the item costs when the historical list is
non-empty, 0 otherwise. -/
def historical_total (historical : List Rat) : Rat :=
  if historical.isEmpty then 0 else historical.sum

/-- Percent change versus the trailing period, as computed in
display_forecast (src/app/app.py): the quotient is taken only when the
historical total is strictly positive, otherwise the value 0 is used. -/
def change_pct (forecast_total htotal : Rat) : Rat :=
  if 0 < htotal then (forecast_total - htotal) / htotal * 100 else 0

/-- The delta argument passed to the forecast metric in display_forecast:
the percent change when the historical total is strictly positive, and the
not-applicable marker None otherwise. -/
def forecast_metric_delta (forecast_total htotal : Rat) : Option Rat :=
  if 0 < htotal then some (change_pct forecast_total htotal) else none

end ForecastDisplay

/-- Substring test, used to model the Python membership test on
lowercased error strings: sub occurs in s iff splitting on it yields more
than one part. -/
def strContains (s sub : String) : Bool :=
  (s.splitOn sub).length > 1

/-- Context string shared verbatim by all three backend managers: join the
string renderings of the first k records with newlines, and when the list
is longer than k append a summary line counting the remaining items. -/
def costContextStr (k : Nat) (cost_data : List String) : String :=
  String.intercalate ("\n") (cost_data.take k) ++
    (if cost_data.length > k then
      ("\n... and ") ++ toString (cost_data.length - k) ++ (" more items")
    else (""))

/-- The analysis prompt built, with identical text, by
LocalLLMManager.analyze_cost_data and GitHubOpenAIManager.analyze_cost_data:
the context of (at most) the first 10 records and the user's question. -/
def finopsAnalyzePrompt (cost_data : List String) (query : String) : String :=
  ("You are a FinOps AI assistant. I need you to analyze this AWS cost data and answer my question.\n\nHere is my AWS cost data:\n")
    ++ costContextStr 10 cost_data
    ++ ("\n\nMy question is: ") ++ query
    ++ ("\n\nPlease provide a detailed analysis based on this data.")

/-- State of the GitHub-hosted backend
(src/utils/github_openai_manager.py): configuration plus the client handle,
which is present exactly when initialization succeeded. -/
structure GitHubOpenAIManager where
  github_token : Option String
  endpoint : String
  model : String
  client : Option Unit
deriving Repr, DecidableEq

/-- Embedding of GitHubOpenAIManager.__init__ (lines 17-48): with a missing
token the client is recorded as None and the constructor returns; with a
token present the OpenAI client construction (outcome passed in as
clientCtor) is attempted, and on failure the exception is caught and the
client again recorded as None.  The constructor is total: it never
propagates an error. -/
def GitHubOpenAIManager.construct (github_token : Option String)
    (endpoint model : String) (clientCtor : Except String Unit) :
    GitHubOpenAIManager :=
  match github_token with
  | none => { github_token := none, endpoint, model, client := none }
  | some tok =>
    match clientCtor with
    | .ok _ => { github_token := some tok, endpoint, model, client := some () }
    | .error _ => { github_token := some tok, endpoint, model, client := none }

/-- The error string returned by every GitHub backend operation when the
client was not initialized. -/
def githubClientNotInitMsg : String :=
  "GitHub OpenAI client not initialized. Check GITHUB_TOKEN environment variable."

/-- Embedding of the error-classification chain in
GitHubOpenAIManager.generate_response: map an API exception message to the
user-facing error string. -/
def GitHubOpenAIManager.classify_api_error (m : GitHubOpenAIManager)
    (e : String) : String :=
  let es := e.toLower
  if strContains es ("no access") || strContains es ("403") then
    ("Access denied to GitHub OpenAI model \x27") ++ m.model ++
      ("\x27. Please check your GitHub token permissions and ensure you have access to this model.")
  else if strContains es ("not found") || strContains es ("404") then
    ("Model \x27") ++ m.model ++
      ("\x27 not found. Please check the model name in your configuration.")
  else if strContains es ("rate limit") || strContains es ("429") then
    ("Rate limit exceeded for GitHub OpenAI API. Please try again later.")
  else
    ("Error generating response with GitHub OpenAI: ") ++ e

/-- Embedding of GitHubOpenAIManager.generate_response (lines 50-98): with
no client, return the not-initialized error string; otherwise send the
prompt to the API (modelled by the function api) and on failure catch the
exception and return a classified error string.  Total: never raises. -/
def GitHubOpenAIManager.generate_response (m : GitHubOpenAIManager)
    (prompt : String) (api : String → Except String String) : String :=
  match m.client with
  | none => githubClientNotInitMsg
  | some _ =>
    match api prompt with
    | .ok text => text
    | .error e => m.classify_api_error e

/-- Embedding of GitHubOpenAIManager.analyze_cost_data (lines 100-130):
build the ten-record context and the question prompt, then delegate to
generate_response. -/
def GitHubOpenAIManager.analyze_cost_data (m : GitHubOpenAIManager)
    (cost_data : List String) (query : String)
    (api : String → Except String String) : String :=
  m.generate_response (finopsAnalyzePrompt cost_data query) api

/-- State of the Azure-hosted backend (src/utils/azure_openai_manager.py)
after a successful construction. -/
structure AzureOpenAIManager where
  api_key : String
  endpoint : String
  deployment_name : String
  api_version : String
deriving Repr, DecidableEq

/-- The ValueError message raised by AzureOpenAIManager.__init__ when any
credential is missing. -/
def azureMissingCredsMsg : String :=
  "Azure OpenAI credentials not found. Please set AZURE_OPENAI_API_KEY, AZURE_OPENAI_ENDPOINT, and AZURE_OPENAI_DEPLOYMENT_NAME."

/-- Embedding of AzureOpenAIManager.__init__ (lines 21-45): when any of the
key, endpoint or deployment name is missing a ValueError is raised
(modelled as Except.error); when the client construction itself fails the
exception is logged and re-raised. -/
def AzureOpenAIManager.construct (api_key endpoint deployment_name : Option String)
    (api_version : Option String) (clientCtor : Except String Unit) :
    Except String AzureOpenAIManager :=
  match api_key, endpoint, deployment_name with
  | some k, some ep, some dn =>
    (match clientCtor with
     | .ok _ => .ok { api_key := k, endpoint := ep, deployment_name := dn,
                      api_version := api_version.getD ("2023-12-01-preview") }
     | .error e => .error e)
  | _, _, _ => .error azureMissingCredsMsg

/-- The user message built by AzureOpenAIManager.generate_cost_analysis:
the ten-record context followed by the user's question. -/
def azureUserAnalysisMsg (cost_data : List String) (query : String) : String :=
  ("Here is my AWS cost data:\n") ++ costContextStr 10 cost_data ++
    ("\n\nMy question is: ") ++ query

/-- Embedding of AzureOpenAIManager.generate_cost_analysis (lines 47-91):
send the built user message to the chat API (modelled by api); a failure is
logged and re-raised to the caller. -/
def AzureOpenAIManager.generate_cost_analysis (m : AzureOpenAIManager)
    (cost_data : List String) (query : String)
    (api : String → Except String String) : Except String String :=
  api (azureUserAnalysisMsg cost_data query)

/-- State of the local TinyLlama backend (src/utils/local_llm_manager.py)
after a successful construction. -/
structure LocalLLMManager where
  model_path : String
  use_gpu : Bool
  device : String
deriving Repr, DecidableEq

/-- Embedding of LocalLLMManager.__init__ (lines 22-108).  The outcomes of
the torch model-loading attempts are passed in: the primary load (with the
bitsandbytes retry folded in), then the safetensors fallback, then the
plain fallback.  When all three fail a RuntimeError is raised (modelled as
Except.error). -/
def LocalLLMManager.construct (model_path : Option String)
    (envModelPath : Option String) (envUseGpu : Option String)
    (mpsAvailable : Bool)
    (primaryLoad fallbackSafetensors fallbackPlain : Except String Unit) :
    Except String LocalLLMManager :=
  let mp := match model_path with
    | some p => p
    | none => envModelPath.getD ("models/tiny-llama")
  let gpu := (envUseGpu.getD ("true")).toLower == ("true")
  let device := if mpsAvailable && gpu then ("mps") else ("cpu")
  match primaryLoad with
  | .ok _ => .ok { model_path := mp, use_gpu := gpu, device }
  | .error e =>
    match fallbackSafetensors with
    | .ok _ => .ok { model_path := mp, use_gpu := gpu, device }
    | .error _ =>
      match fallbackPlain with
      | .ok _ => .ok { model_path := mp, use_gpu := gpu, device }
      | .error e2 =>
        .error (("Failed to load the model: ") ++ e ++
          (". Fallback attempt also failed: ") ++ e2)

/-- Embedding of LocalLLMManager.generate_response (lines 110-152): wrap
the prompt in the chat template, run generation (modelled by gen), extract
the assistant part of the decoding; a generation failure is logged and
re-raised. -/
def LocalLLMManager.generate_response (m : LocalLLMManager) (prompt : String)
    (gen : String → Except String String) : Except String String :=
  let formatted_prompt := ("<|user|>\n") ++ prompt ++ ("\n<|assistant|>")
  match gen formatted_prompt with
  | .ok raw => .ok (((raw.splitOn ("<|assistant|>")).getLastD ("")).trim)
  | .error e => .error e

/-- Embedding of LocalLLMManager.analyze_cost_data (lines 152-182): build
the ten-record context and question prompt, generate, and catch any
generation error, returning it as an error string. -/
def LocalLLMManager.analyze_cost_data (m : LocalLLMManager)
    (cost_data : List String) (query : String)
    (gen : String → Except String String) : String :=
  match m.generate_response (finopsAnalyzePrompt cost_data query) gen with
  | .ok t => t
  | .error e => ("Error analyzing cost data: ") ++ e

/-- Row of the aws_cost_data table (src/database/models.py, AWSCostData):
fields the loops of data_access.py touch; nullable columns are Options.
The DB-assigned id and timestamps are omitted (no operation reads them). -/
structure AWSCostData where
  account_id : String
  service_name : String
  region : Option String
  usage_type : Option String
  resource_id : Option String
  cost : Rat
  usage_quantity : Option Rat
  start_date : Nat
  end_date : Nat
  date_range_type : String
  currency : String
deriving Repr, DecidableEq

/-- Row of the cost_forecasts table (src/database/models.py, CostForecast),
without the DB-assigned id and created_at. -/
structure CostForecast where
  account_id : String
  service_name : String
  forecast_date : Nat
  forecasted_cost : Rat
  confidence_level : Option Rat
  model_version : Option String
deriving Repr, DecidableEq

/-- Row of the cost_recommendations table as the read path sees it
(src/database/models.py, CostRecommendation), including the DB-assigned id
and created_at, modelled as Nats. -/
structure StoredRecommendation where
  id : Nat
  account_id : String
  resource_id : Option String
  service_name : String
  recommendation_type : String
  description : String
  potential_savings : Option Rat
  status : String
  created_at : Nat
deriving Repr, DecidableEq

/-- The dict passed to DataAccess.save_cost_data: the keys item.get reads,
with Options where the producer may omit the key. -/
structure CostItem where
  account_id : String
  service : String
  region : Option String
  usage_type : Option String
  resource_id : Option String
  cost : Rat
  usage_quantity : Option Rat
  start_date : Nat
  end_date : Nat
  date_range_type : Option String
  currency : Option String
deriving Repr, DecidableEq

/-- The dict passed to DataAccess.save_forecast. -/
structure ForecastItem where
  account_id : String
  service_name : String
  forecast_date : Nat
  forecasted_cost : Rat
  confidence_level : Option Rat
  model_version : Option String
deriving Repr, DecidableEq

/-- The dict passed to DataAccess.save_recommendations; status defaults to
open.  The DB-side id and created_at columns are filled by the database at
insert and are not part of the batch data. -/
structure RecommendationItem where
  account_id : String
  resource_id : Option String
  service_name : String
  recommendation_type : String
  description : String
  potential_savings : Option Rat
  status : Option String
deriving Repr, DecidableEq

/-- Entity built per item in the save_cost_data loop
(src/database/data_access.py lines 38-52), with the item.get defaults for
date_range_type and currency. -/
def costEntryOf (item : CostItem) : AWSCostData :=
  { account_id := item.account_id
    service_name := item.service
    region := item.region
    usage_type := item.usage_type
    resource_id := item.resource_id
    cost := item.cost
    usage_quantity := item.usage_quantity
    start_date := item.start_date
    end_date := item.end_date
    date_range_type := item.date_range_type.getD ("daily")
    currency := item.currency.getD ("USD") }

/-- Entity built per item in the save_forecast loop. -/
def forecastEntryOf (item : ForecastItem) : CostForecast :=
  { account_id := item.account_id
    service_name := item.service_name
    forecast_date := item.forecast_date
    forecasted_cost := item.forecasted_cost
    confidence_level := item.confidence_level
    model_version := item.model_version }

/-- Entity built per item in the save_recommendations loop; the DB-assigned
id and created_at are modelled as 0 at staging time (no claim reads them
back through this path). -/
def recommendationEntryOf (item : RecommendationItem) : StoredRecommendation :=
  { id := 0
    account_id := item.account_id
    resource_id := item.resource_id
    service_name := item.service_name
    recommendation_type := item.recommendation_type
    description := item.description
    potential_savings := item.potential_savings
    status := item.status.getD ("open")
    created_at := 0 }

/-- The SQLAlchemy session, modelled as the committed table contents plus
the staged (added but not yet committed) rows. -/
structure DbSession (α : Type) where
  committed : List α
  pending : List α
deriving Repr, DecidableEq

/-- Embedding of session.add: stage a row. -/
def dbAdd (s : DbSession α) (r : α) : DbSession α :=
  { s with pending := s.pending ++ [r] }

/-- First insert failure among the staged rows, under the insert outcome
function ins that models database-level failures (constraint violations,
connection loss) for each row. -/
def firstInsertError (ins : α → Except String Unit) : List α → Option String
  | [] => none
  | r :: rs =>
    match ins r with
    | .error e => some e
    | .ok _ => firstInsertError ins rs

/-- Embedding of session.commit: flush all staged rows; if any insert
fails, the commit raises and nothing becomes visible; otherwise all staged
rows are appended to the committed contents, in submission order. -/
def dbCommit (ins : α → Except String Unit) (s : DbSession α) :
    Except String (DbSession α) :=
  match firstInsertError ins s.pending with
  | some e => .error e
  | none => .ok { committed := s.committed ++ s.pending, pending := [] }

/-- Embedding of session.rollback: discard the staged rows. -/
def dbRollback (s : DbSession α) : DbSession α :=
  { s with pending := [] }

/-- The common shape of the three bulk-save operations of DataAccess:
stage every row, then commit; on failure roll back and re-raise. -/
def bulkInsert (ins : α → Except String Unit) (rows : List α)
    (s : DbSession α) : Except String Unit × DbSession α :=
  let s1 := rows.foldl dbAdd s
  match dbCommit ins s1 with
  | .ok s2 => (.ok (), s2)
  | .error e => (.error e, dbRollback s1)

namespace DataAccess

/-- Embedding of DataAccess.save_cost_data (src/database/data_access.py
lines 31-61). -/
def save_cost_data (ins : AWSCostData → Except String Unit)
    (cost_data : List CostItem) (s : DbSession AWSCostData) :
    Except String Unit × DbSession AWSCostData :=
  bulkInsert ins (cost_data.map costEntryOf) s

/-- Embedding of DataAccess.save_forecast (lines 139-165). -/
def save_forecast (ins : CostForecast → Except String Unit)
    (forecasts : List ForecastItem) (s : DbSession CostForecast) :
    Except String Unit × DbSession CostForecast :=
  bulkInsert ins (forecasts.map forecastEntryOf) s

/-- Embedding of DataAccess.save_recommendations (lines 205-231). -/
def save_recommendations (ins : StoredRecommendation → Except String Unit)
    (recommendations : List RecommendationItem)
    (s : DbSession StoredRecommendation) :
    Except String Unit × DbSession StoredRecommendation :=
  bulkInsert ins (recommendations.map recommendationEntryOf) s

end DataAccess

/-- Lexicographic comparison of character lists, the order underlying the
SQL MIN over the text currency column.  (The library order on String does
not reduce in the kernel, so the comparison is spelled out.) -/
def charListLt : List Char → List Char → Bool
  | [], [] => false
  | [], _ :: _ => true
  | _ :: _, [] => false
  | a :: as, b :: bs =>
    if a < b then true else if b < a then false else charListLt as bs

/-- Minimum of two strings in the lexicographic order. -/
def strMin (a b : String) : String :=
  if charListLt a.data b.data then a else b

/-- One output row of get_cost_by_service: a service with its summed cost
and the minimum currency tag of its group. -/
structure ServiceAggRow where
  service : String
  total_cost : Rat
  currency : String
deriving Repr, DecidableEq

/-- Descending order on total_cost, the ORDER BY of get_cost_by_service. -/
def aggDescRel (a b : ServiceAggRow) : Prop :=
  b.total_cost ≤ a.total_cost

instance : DecidableRel aggDescRel := fun a b => by
  unfold aggDescRel; infer_instance

instance : IsTotal ServiceAggRow aggDescRel :=
  ⟨fun a b => le_total b.total_cost a.total_cost⟩

instance : IsTrans ServiceAggRow aggDescRel :=
  ⟨fun _ _ _ h1 h2 => le_trans h2 h1⟩

/-- One output row of get_cost_by_day. -/
structure DayAggRow where
  day : Nat
  total_cost : Rat
  currency : String
deriving Repr, DecidableEq

/-- Ascending order on the day, the ORDER BY of get_cost_by_day. -/
def dayAscRel (a b : DayAggRow) : Prop :=
  a.day ≤ b.day

instance : DecidableRel dayAscRel := fun a b => by
  unfold dayAscRel; infer_instance

instance : IsTotal DayAggRow dayAscRel :=
  ⟨fun a b => le_total a.day b.day⟩

instance : IsTrans DayAggRow dayAscRel :=
  ⟨fun _ _ _ h1 h2 => le_trans h1 h2⟩

/-- Python truthiness conversion applied to nullable numeric columns:
float(x) if x else None maps NULL and 0 to None and keeps any other
value. -/
def pyTruthyRat : Option Rat → Option Rat
  | none => none
  | some x => if x == 0 then none else some x

/-- Sort key of the recommendation listing: potential_savings descending;
a NULL sorts first under the DESC order (modelled as the top element). -/
def savKey (r : StoredRecommendation) : WithTop Rat :=
  match r.potential_savings with
  | none => ⊤
  | some x => (x : WithTop Rat)

/-- Descending order on potential_savings, the ORDER BY of
get_open_recommendations. -/
def savingsDescRel (a b : StoredRecommendation) : Prop :=
  savKey b ≤ savKey a

instance : DecidableRel savingsDescRel := fun a b => by
  unfold savingsDescRel; infer_instance

instance : IsTotal StoredRecommendation savingsDescRel :=
  ⟨fun a b => le_total (savKey b) (savKey a)⟩

instance : IsTrans StoredRecommendation savingsDescRel :=
  ⟨fun _ _ _ h1 h2 => le_trans h2 h1⟩

/-- Row of the chat_history table (src/database/models.py, ChatHistory);
the UUID session id is modelled as a Nat and created_at as a monotone
clock tick. -/
structure ChatHistoryRow where
  session_id : Nat
  user_query : String
  assistant_response : String
  llm_model : Option String
  tokens_used : Option Nat
  created_at : Nat
deriving Repr, DecidableEq

/-- The chat_history table together with the clock that models the
monotonically increasing created_at timestamps the database assigns. -/
structure ChatDb where
  rows : List ChatHistoryRow
  clock : Nat
deriving Repr, DecidableEq

/-- Most-recent-first order on created_at, the ORDER BY of
get_chat_history. -/
def chatDescRel (a b : ChatHistoryRow) : Prop :=
  b.created_at ≤ a.created_at

instance : DecidableRel chatDescRel := fun a b => by
  unfold chatDescRel; infer_instance

instance : IsTotal ChatHistoryRow chatDescRel :=
  ⟨fun a b => le_total b.created_at a.created_at⟩

instance : IsTrans ChatHistoryRow chatDescRel :=
  ⟨fun _ _ _ h1 h2 => le_trans h2 h1⟩

/-- Most-recent-first order on the created_at component of a forecast row
paired with its DB-assigned created_at, the ORDER BY of
get_latest_forecasts. -/
def forecastDescRel (a b : CostForecast × Nat) : Prop :=
  b.2 ≤ a.2

instance : DecidableRel forecastDescRel := fun a b => by
  unfold forecastDescRel; infer_instance

instance : IsTotal (CostForecast × Nat) forecastDescRel :=
  ⟨fun a b => le_total b.2 a.2⟩

instance : IsTrans (CostForecast × Nat) forecastDescRel :=
  ⟨fun _ _ _ h1 h2 => le_trans h2 h1⟩

/-- Row of the user_settings table (src/database/models.py, UserSettings);
the JSONB blobs are opaque strings here. -/
structure UserSettingsRow where
  user_id : String
  preferred_llm : String
  budget_alerts : Option String
  custom_dashboards : Option String
  created_at : Nat
  updated_at : Nat
deriving Repr, DecidableEq

namespace DataAccess

/-- The WHERE clause of the aggregate queries: start_date at or after the
requested start and end_date at or before the requested end. -/
def inDateRange (start_date end_date : Nat) (r : AWSCostData) : Bool :=
  decide (start_date ≤ r.start_date) && decide (r.end_date ≤ end_date)

/-- SUM(cost) of the group of rows whose service_name is svc. -/
def serviceTotal (rows : List AWSCostData) (svc : String) : Rat :=
  ((rows.filter (fun r => r.service_name == svc)).map (fun r => r.cost)).sum

/-- MIN(currency) of the group of rows whose service_name is svc. -/
def serviceMinCurrency (rows : List AWSCostData) (svc : String) : String :=
  match (rows.filter (fun r => r.service_name == svc)).map (fun r => r.currency) with
  | [] => ""
  | c :: cs => cs.foldl strMin c

/-- Embedding of DataAccess.get_cost_by_service (src/database/data_access.py
lines 63-99): filter to the range, group by service_name, sum cost and take
the minimum currency per group, order by total cost descending; a failing
query is caught and yields the empty list. -/
def get_cost_by_service (queryResult : Except String (List AWSCostData))
    (start_date end_date : Nat) : List ServiceAggRow :=
  match queryResult with
  | .error _ => []
  | .ok rows =>
    let filtered := rows.filter (inDateRange start_date end_date)
    let keys := (filtered.map (fun r => r.service_name)).dedup
    List.insertionSort aggDescRel (keys.map (fun k =>
      { service := k
        total_cost := serviceTotal filtered k
        currency := serviceMinCurrency filtered k }))

/-- SUM(cost) of the group of rows whose (day-truncated) start_date is d. -/
def dayTotal (rows : List AWSCostData) (d : Nat) : Rat :=
  ((rows.filter (fun r => r.start_date == d)).map (fun r => r.cost)).sum

/-- MIN(currency) of the group of rows whose start_date is d. -/
def dayMinCurrency (rows : List AWSCostData) (d : Nat) : String :=
  match (rows.filter (fun r => r.start_date == d)).map (fun r => r.currency) with
  | [] => ""
  | c :: cs => cs.foldl strMin c

/-- Embedding of DataAccess.get_cost_by_day (lines 101-137): dates are
modelled at day granularity, so date_trunc is the identity; group by day,
sum cost, order by day ascending; a failing query yields the empty list. -/
def get_cost_by_day (queryResult : Except String (List AWSCostData))
    (start_date end_date : Nat) : List DayAggRow :=
  match queryResult with
  | .error _ => []
  | .ok rows =>
    let filtered := rows.filter (inDateRange start_date end_date)
    let keys := (filtered.map (fun r => r.start_date)).dedup
    List.insertionSort dayAscRel (keys.map (fun d =>
      { day := d
        total_cost := dayTotal filtered d
        currency := dayMinCurrency filtered d }))

/-- Embedding of DataAccess.get_latest_forecasts (lines 167-201): order by
created_at descending, truncate to the limit, and apply the Python
truthiness conversion to confidence_level; a failing query yields the
empty list. -/
def get_latest_forecasts (queryResult : Except String (List (CostForecast × Nat)))
    (limit : Nat) : List (CostForecast × Nat) :=
  match queryResult with
  | .error _ => []
  | .ok rows =>
    ((List.insertionSort forecastDescRel rows).take limit).map (fun rc =>
      ({ rc.1 with confidence_level := pyTruthyRat rc.1.confidence_level }, rc.2))

/-- Embedding of DataAccess.get_open_recommendations (lines 233-265):
filter to status open, order by potential_savings descending, and apply
the Python truthiness conversion float(x) if x else None to
potential_savings; a failing query yields the empty list. -/
def get_open_recommendations
    (queryResult : Except String (List StoredRecommendation)) :
    List StoredRecommendation :=
  match queryResult with
  | .error _ => []
  | .ok rows =>
    (List.insertionSort savingsDescRel (rows.filter (fun r => r.status == ("open")))).map
      (fun r => { r with potential_savings := pyTruthyRat r.potential_savings })

/-- Embedding of DataAccess.save_chat_history (lines 269-297): append one
row for the session, stamped with the current clock as its created_at. -/
def save_chat_history (db : ChatDb) (session_id : Nat)
    (user_query assistant_response : String) (llm_model : Option String)
    (tokens_used : Option Nat) : ChatDb :=
  { rows := db.rows ++
      [{ session_id, user_query, assistant_response, llm_model, tokens_used,
         created_at := db.clock }]
    clock := db.clock + 1 }

/-- Embedding of DataAccess.get_chat_history (lines 299-336): rows of the
session, ordered most-recent-first by created_at, truncated to the limit;
a failing query yields the empty list. -/
def get_chat_history (queryResult : Except String (List ChatHistoryRow))
    (session_id : Nat) (limit : Nat) : List ChatHistoryRow :=
  match queryResult with
  | .error _ => []
  | .ok rows =>
    (List.insertionSort chatDescRel
      (rows.filter (fun r => r.session_id == session_id))).take limit

/-- Embedding of DataAccess.get_user_settings (lines 340-372): the first
row of the user, None when absent; a failing query yields None. -/
def get_user_settings (queryResult : Except String (List UserSettingsRow))
    (user_id : String) : Option UserSettingsRow :=
  match queryResult with
  | .error _ => none
  | .ok rows => (rows.filter (fun r => r.user_id == user_id)).head?

end DataAccess

/-- Claim C3: in the native forecast path the percent change
((forecast − historical) / historical × 100) is computed only when the
historical total is strictly positive; when the historical total is 0 the
metric delta is reported as the not-applicable marker None and the change
value falls back to 0 without any division being taken. -/
theorem c3_forecast_percent_change_guard :
    (∀ ft : Rat,
      ForecastDisplay.forecast_metric_delta ft 0 = none ∧
      ForecastDisplay.change_pct ft 0 = 0) ∧
    (∀ ft ht : Rat, 0 < ht →
      ForecastDisplay.forecast_metric_delta ft ht = some ((ft - ht) / ht * 100)) := by
  constructor
  · intro ft
    constructor <;>
      simp [ForecastDisplay.forecast_metric_delta, ForecastDisplay.change_pct]
  · intro ft ht h
    simp [ForecastDisplay.forecast_metric_delta, ForecastDisplay.change_pct, h]

/-- Witness for C3 at the spec's concrete scenario: historical total 0 and
forecast total 100 yield the not-applicable delta, and a positive
historical total yields the computed percentage. -/
theorem c3_forecast_percent_change_guard_witness :
    ForecastDisplay.forecast_metric_delta 100 0 = none ∧
    ForecastDisplay.forecast_metric_delta 150 100 = some 50 := by
  constructor
  · exact (c3_forecast_percent_change_guard.1 100).1
  · rw [c3_forecast_percent_change_guard.2 150 100 (by norm_num)]
    norm_num

/-- Claim C9: every read operation of the persistence store returns its
empty result instead of raising when the underlying query fails: the empty
list for the aggregate, forecast, recommendation and chat-history reads,
and None for the single-row user-settings read. -/
theorem c9_failing_reads_return_empty :
    ∀ (e : String) (sd ed sid lim : Nat) (uid : String),
      DataAccess.get_cost_by_service (Except.error e) sd ed = [] ∧
      DataAccess.get_cost_by_day (Except.error e) sd ed = [] ∧
      DataAccess.get_latest_forecasts (Except.error e) lim = [] ∧
      DataAccess.get_open_recommendations (Except.error e) = [] ∧
      DataAccess.get_chat_history (Except.error e) sid lim = [] ∧
      DataAccess.get_user_settings (Except.error e) uid = none := by
  intro e sd ed sid lim uid
  exact ⟨rfl, rfl, rfl, rfl, rfl, rfl⟩

/-- Counterexample to claim C1 as stated: constructing the Azure-hosted
backend with missing credentials raises a ValueError past construction
(the constructor returns an error) rather than recording the backend as
unavailable. -/
theorem c1_counterexample_azure_init_raises :
    AzureOpenAIManager.construct none none none none (Except.ok ()) =
      Except.error azureMissingCredsMsg := rfl

/-- Claim C1 (amended): only the GitHub-hosted backend honors the
backend-unavailable contract: constructing it with a missing token never
raises (the client is recorded as absent) and every subsequent operation
returns the non-empty not-initialized error string; the Azure-hosted
backend raises at construction whenever a credential is missing, and the
local backend raises at construction when every model-loading attempt
fails. -/
theorem c1_amended_backend_unavailable_contract :
    (∀ (ep model : String) (ctor : Except String Unit),
      (GitHubOpenAIManager.construct none ep model ctor).client = none) ∧
    (∀ (ep model : String) (ctor : Except String Unit) (prompt : String)
        (api : String → Except String String),
      (GitHubOpenAIManager.construct none ep model ctor).generate_response
        prompt api = githubClientNotInitMsg) ∧
    (∀ (ep model : String) (ctor : Except String Unit)
        (cost_data : List String) (query : String)
        (api : String → Except String String),
      (GitHubOpenAIManager.construct none ep model ctor).analyze_cost_data
        cost_data query api = githubClientNotInitMsg) ∧
    githubClientNotInitMsg ≠ "" ∧
    (∀ (ep dn v : Option String) (ctor : Except String Unit),
      AzureOpenAIManager.construct none ep dn v ctor =
        Except.error azureMissingCredsMsg) ∧
    (∀ (mp emp egpu : Option String) (mps : Bool) (e1 e2 e3 : String),
      LocalLLMManager.construct mp emp egpu mps
        (Except.error e1) (Except.error e2) (Except.error e3) =
        Except.error (("Failed to load the model: ") ++ e1 ++
          (". Fallback attempt also failed: ") ++ e3)) := by
  refine ⟨fun ep model ctor => rfl, fun ep model ctor prompt api => rfl,
    fun ep model ctor cost_data query api => rfl, by decide, ?_, ?_⟩
  · intro ep dn v ctor
    rfl
  · intro mp emp egpu mps e1 e2 e3
    rfl

/-- Helper: the backend context string is determined by the first ten
records together with the total record count. -/
theorem costContextStr_take_congr (d1 d2 : List String)
    (h1 : d1.take 10 = d2.take 10) (h2 : d1.length = d2.length) :
    costContextStr 10 d1 = costContextStr 10 d2 := by
  simp only [costContextStr, h1, h2]

/-- Helper: congruence of the shared analysis prompt in the record list. -/
theorem finopsAnalyzePrompt_congr (d1 d2 : List String) (q : String)
    (h1 : d1.take 10 = d2.take 10) (h2 : d1.length = d2.length) :
    finopsAnalyzePrompt d1 q = finopsAnalyzePrompt d2 q := by
  unfold finopsAnalyzePrompt
  rw [costContextStr_take_congr d1 d2 h1 h2]

/-- Helper: congruence of the Azure analysis user message in the record
list. -/
theorem azureUserAnalysisMsg_congr (d1 d2 : List String) (q : String)
    (h1 : d1.take 10 = d2.take 10) (h2 : d1.length = d2.length) :
    azureUserAnalysisMsg d1 q = azureUserAnalysisMsg d2 q := by
  unfold azureUserAnalysisMsg
  rw [costContextStr_take_congr d1 d2 h1 h2]

/-- Claim C7: every backend's cost-data question-answering operation builds
its context from at most the first 10 records (the context, and hence the
analysis result, depends only on the first 10 records and the record
count), appends the count of the remaining records when there are more
than 10, and embeds the user's question in the prompt sent for
generation. -/
theorem c7_analyze_cost_data_context :
    (∀ d1 d2 : List String, d1.take 10 = d2.take 10 → d1.length = d2.length →
      costContextStr 10 d1 = costContextStr 10 d2) ∧
    (∀ d : List String, 10 < d.length →
      ∃ p, costContextStr 10 d =
        p ++ (("\n... and ") ++ toString (d.length - 10) ++ (" more items"))) ∧
    (∀ d : List String, d.length ≤ 10 →
      costContextStr 10 d = String.intercalate ("\n") d) ∧
    (∀ (d : List String) (q : String),
      (∃ a b, finopsAnalyzePrompt d q = a ++ q ++ b) ∧
      (∃ a, azureUserAnalysisMsg d q = a ++ q)) ∧
    (∀ (m : GitHubOpenAIManager) (api : String → Except String String)
        (d1 d2 : List String) (q : String),
      d1.take 10 = d2.take 10 → d1.length = d2.length →
      m.analyze_cost_data d1 q api = m.analyze_cost_data d2 q api) ∧
    (∀ (m : LocalLLMManager) (gen : String → Except String String)
        (d1 d2 : List String) (q : String),
      d1.take 10 = d2.take 10 → d1.length = d2.length →
      m.analyze_cost_data d1 q gen = m.analyze_cost_data d2 q gen) ∧
    (∀ (m : AzureOpenAIManager) (api : String → Except String String)
        (d1 d2 : List String) (q : String),
      d1.take 10 = d2.take 10 → d1.length = d2.length →
      m.generate_cost_analysis d1 q api = m.generate_cost_analysis d2 q api) := by
  refine ⟨costContextStr_take_congr, ?_, ?_, ?_, ?_, ?_, ?_⟩
  · intro d h
    exact ⟨String.intercalate ("\n") (d.take 10), by simp [costContextStr, h]⟩
  · intro d h
    simp [costContextStr, Nat.not_lt.mpr h, List.take_of_length_le h,
      String.append_empty]
  · intro d q
    exact ⟨⟨_, _, rfl⟩, ⟨_, rfl⟩⟩
  · intro m api d1 d2 q h1 h2
    unfold GitHubOpenAIManager.analyze_cost_data
    rw [finopsAnalyzePrompt_congr d1 d2 q h1 h2]
  · intro m gen d1 d2 q h1 h2
    unfold LocalLLMManager.analyze_cost_data
    rw [finopsAnalyzePrompt_congr d1 d2 q h1 h2]
  · intro m api d1 d2 q h1 h2
    unfold AzureOpenAIManager.generate_cost_analysis
    rw [azureUserAnalysisMsg_congr d1 d2 q h1 h2]

/-- Record lists used by the C7 witness: eleven records differing only in
the eleventh. -/
def c7ListA : List String :=
  ["1", "2", "3", "4", "5", "6", "7", "8", "9", "10", "X"]

/-- Second record list of the C7 witness. -/
def c7ListB : List String :=
  ["1", "2", "3", "4", "5", "6", "7", "8", "9", "10", "Y"]

/-- Witness for C7: two eleven-record lists that agree on their first ten
records produce the same context, the remainder count is appended, and the
question appears verbatim in the prompt. -/
theorem c7_analyze_cost_data_context_witness :
    costContextStr 10 c7ListA = costContextStr 10 c7ListB ∧
    (∃ p, costContextStr 10 c7ListA =
      p ++ (("\n... and ") ++ toString (c7ListA.length - 10) ++ (" more items"))) ∧
    (∃ a b, finopsAnalyzePrompt c7ListA ("which service costs most") =
      a ++ ("which service costs most") ++ b) := by
  refine ⟨?_, ?_, ?_⟩
  · exact c7_analyze_cost_data_context.1 c7ListA c7ListB (by decide) (by decide)
  · exact c7_analyze_cost_data_context.2.1 c7ListA (by decide)
  · exact (c7_analyze_cost_data_context.2.2.2.1 c7ListA
      ("which service costs most")).1

/-- Helper: folding session.add over a batch stages exactly the batch, in
submission order, and leaves the committed contents untouched. -/
theorem foldl_dbAdd (rows : List α) (s : DbSession α) :
    rows.foldl dbAdd s = { committed := s.committed, pending := s.pending ++ rows } := by
  induction rows generalizing s with
  | nil => simp
  | cons r rs ih => simp [dbAdd, ih, List.append_assoc]

/-- Helper: the commit scan finds no failure exactly when every row of the
batch inserts successfully. -/
theorem firstInsertError_eq_none (ins : α → Except String Unit) (rows : List α) :
    firstInsertError ins rows = none ↔ ∀ r ∈ rows, ins r = Except.ok () := by
  induction rows with
  | nil => simp [firstInsertError]
  | cons r rs ih =>
    simp only [firstInsertError, List.forall_mem_cons]
    cases h : ins r with
    | error e => simp [h]
    | ok u => cases u; simp [h, ih]

/-- Helper: closed form of a bulk insert on a session with nothing staged:
either some row fails and the result is that error with the session rolled
back, or all rows insert and the batch is appended to the committed
contents. -/
theorem bulkInsert_eq (ins : α → Except String Unit) (rows : List α)
    (s : DbSession α) (h : s.pending = []) :
    bulkInsert ins rows s =
      match firstInsertError ins rows with
      | some e => (Except.error e, { committed := s.committed, pending := [] })
      | none => (Except.ok (), { committed := s.committed ++ rows, pending := [] }) := by
  unfold bulkInsert dbCommit dbRollback
  rw [foldl_dbAdd, h]
  cases hf : firstInsertError ins rows <;> simp [hf]

/-- Helper: the all-or-nothing property of a bulk insert. -/
theorem bulkInsert_spec (ins : α → Except String Unit) (rows : List α)
    (s : DbSession α) (h : s.pending = []) :
    ((bulkInsert ins rows s).1 = Except.ok () ↔
      ∀ r ∈ rows, ins r = Except.ok ()) ∧
    ((bulkInsert ins rows s).1 = Except.ok () →
      (bulkInsert ins rows s).2.committed = s.committed ++ rows) ∧
    (∀ e, (bulkInsert ins rows s).1 = Except.error e →
      (bulkInsert ins rows s).2.committed = s.committed) ∧
    (bulkInsert ins rows s).2.pending = [] := by
  rw [bulkInsert_eq ins rows s h]
  cases hf : firstInsertError ins rows with
  | none =>
    have hall := (firstInsertError_eq_none ins rows).mp hf
    exact ⟨by simpa using hall, by simp, by simp, rfl⟩
  | some e =>
    have hne : ¬ ∀ r ∈ rows, ins r = Except.ok () := by
      intro hall
      have hc := (firstInsertError_eq_none ins rows).mpr hall
      rw [hf] at hc
      exact Option.noConfusion hc
    simp [hne]

/-- Claim C2: each bulk-save operation of the persistence layer is atomic
per batch: starting from a session with nothing staged, the save succeeds
exactly when every record of the batch inserts; on success all records of
the batch (in submission order) are appended to the committed contents,
and on any failure the error is re-raised and the committed contents are
unchanged, with nothing left staged. -/
theorem c2_batch_atomicity :
    (∀ (ins : AWSCostData → Except String Unit) (items : List CostItem)
        (s : DbSession AWSCostData), s.pending = [] →
      ((DataAccess.save_cost_data ins items s).1 = Except.ok () ↔
        ∀ r ∈ items.map costEntryOf, ins r = Except.ok ()) ∧
      ((DataAccess.save_cost_data ins items s).1 = Except.ok () →
        (DataAccess.save_cost_data ins items s).2.committed =
          s.committed ++ items.map costEntryOf) ∧
      (∀ e, (DataAccess.save_cost_data ins items s).1 = Except.error e →
        (DataAccess.save_cost_data ins items s).2.committed = s.committed) ∧
      (DataAccess.save_cost_data ins items s).2.pending = []) ∧
    (∀ (ins : CostForecast → Except String Unit) (items : List ForecastItem)
        (s : DbSession CostForecast), s.pending = [] →
      ((DataAccess.save_forecast ins items s).1 = Except.ok () ↔
        ∀ r ∈ items.map forecastEntryOf, ins r = Except.ok ()) ∧
      ((DataAccess.save_forecast ins items s).1 = Except.ok () →
        (DataAccess.save_forecast ins items s).2.committed =
          s.committed ++ items.map forecastEntryOf) ∧
      (∀ e, (DataAccess.save_forecast ins items s).1 = Except.error e →
        (DataAccess.save_forecast ins items s).2.committed = s.committed) ∧
      (DataAccess.save_forecast ins items s).2.pending = []) ∧
    (∀ (ins : StoredRecommendation → Except String Unit)
        (items : List RecommendationItem)
        (s : DbSession StoredRecommendation), s.pending = [] →
      ((DataAccess.save_recommendations ins items s).1 = Except.ok () ↔
        ∀ r ∈ items.map recommendationEntryOf, ins r = Except.ok ()) ∧
      ((DataAccess.save_recommendations ins items s).1 = Except.ok () →
        (DataAccess.save_recommendations ins items s).2.committed =
          s.committed ++ items.map recommendationEntryOf) ∧
      (∀ e, (DataAccess.save_recommendations ins items s).1 = Except.error e →
        (DataAccess.save_recommendations ins items s).2.committed = s.committed) ∧
      (DataAccess.save_recommendations ins items s).2.pending = []) := by
  exact ⟨fun ins items s h => bulkInsert_spec ins (items.map costEntryOf) s h,
    fun ins items s h => bulkInsert_spec ins (items.map forecastEntryOf) s h,
    fun ins items s h => bulkInsert_spec ins (items.map recommendationEntryOf) s h⟩

/-- A concrete cost item for the C2 witness. -/
def c2Item : CostItem :=
  { account_id := "111122223333"
    service := "Amazon EC2"
    region := some ("us-west-2")
    usage_type := none
    resource_id := none
    cost := 10
    usage_quantity := none
    start_date := 1
    end_date := 1
    date_range_type := none
    currency := none }

/-- Witness for C2: on an empty session, a batch whose single record
inserts is fully committed, while the same batch under a failing insert
leaves the committed contents empty. -/
theorem c2_batch_atomicity_witness :
    (DataAccess.save_cost_data (fun _ => Except.ok ()) [c2Item]
      ⟨[], []⟩).2.committed = [costEntryOf c2Item] ∧
    (DataAccess.save_cost_data (fun _ => Except.error ("disk full")) [c2Item]
      ⟨[], []⟩).2.committed = [] := by
  constructor
  · exact (c2_batch_atomicity.1 (fun _ => Except.ok ()) [c2Item] ⟨[], []⟩ rfl).2.1
      (((c2_batch_atomicity.1 (fun _ => Except.ok ()) [c2Item] ⟨[], []⟩ rfl).1).mpr
        (fun r _ => rfl))
  · exact (c2_batch_atomicity.1 (fun _ => Except.error ("disk full")) [c2Item]
      ⟨[], []⟩ rfl).2.2.1 ("disk full") rfl

/-- Helper: every row of the service aggregate carries exactly the summed
cost of its service group over the range-filtered records. -/
theorem total_of_mem_get_cost_by_service (rows : List AWSCostData)
    (sd ed : Nat) (agg : ServiceAggRow)
    (h : agg ∈ DataAccess.get_cost_by_service (Except.ok rows) sd ed) :
    agg.total_cost =
      DataAccess.serviceTotal (rows.filter (DataAccess.inDateRange sd ed)) agg.service := by
  have h2 : agg ∈ List.insertionSort aggDescRel
      (((rows.filter (DataAccess.inDateRange sd ed)).map
        (fun r => r.service_name)).dedup.map
          (fun k => ServiceAggRow.mk k
            (DataAccess.serviceTotal (rows.filter (DataAccess.inDateRange sd ed)) k)
            (DataAccess.serviceMinCurrency (rows.filter (DataAccess.inDateRange sd ed)) k))) := h
  have h3 := (List.perm_insertionSort aggDescRel _).mem_iff.mp h2
  obtain ⟨k, _, hfk⟩ := List.mem_map.mp h3
  rw [← hfk]

/-- First stored record of the C5 scenario: service A with cost 10. -/
def rowA : AWSCostData :=
  { account_id := "111122223333"
    service_name := "A"
    region := none
    usage_type := none
    resource_id := none
    cost := 10
    usage_quantity := none
    start_date := 1
    end_date := 1
    date_range_type := "daily"
    currency := "USD" }

/-- Second stored record of the C5 scenario: service B with cost 5. -/
def rowB : AWSCostData :=
  { account_id := "111122223333"
    service_name := "B"
    region := none
    usage_type := none
    resource_id := none
    cost := 5
    usage_quantity := none
    start_date := 1
    end_date := 1
    date_range_type := "daily"
    currency := "USD" }

/-- Claim C5: the cost-by-service aggregate groups the range-filtered
records by service_name, sums the cost per service, and returns the groups
sorted descending by total cost; on the stored records A:10 and B:5 inside
the queried range it returns the two groups in order A then B, with grand
total 15 and top service A. -/
theorem c5_cost_by_service_aggregate :
    (DataAccess.get_cost_by_service (Except.ok [rowA, rowB]) 0 2 =
      [{ service := "A", total_cost := 10, currency := "USD" },
       { service := "B", total_cost := 5, currency := "USD" }] ∧
     ((DataAccess.get_cost_by_service (Except.ok [rowA, rowB]) 0 2).map
        (fun a => a.total_cost)).sum = 15 ∧
     (DataAccess.get_cost_by_service (Except.ok [rowA, rowB]) 0 2).head?.map
        (fun a => a.service) = some ("A")) ∧
    (∀ (q : Except String (List AWSCostData)) (sd ed : Nat),
      List.Sorted aggDescRel (DataAccess.get_cost_by_service q sd ed)) ∧
    (∀ (rows : List AWSCostData) (sd ed : Nat) (agg : ServiceAggRow),
      agg ∈ DataAccess.get_cost_by_service (Except.ok rows) sd ed →
      agg.total_cost =
        DataAccess.serviceTotal (rows.filter (DataAccess.inDateRange sd ed)) agg.service) := by
  have hs : DataAccess.get_cost_by_service (Except.ok [rowA, rowB]) 0 2 =
      [{ service := "A", total_cost := 10, currency := "USD" },
       { service := "B", total_cost := 5, currency := "USD" }] := by
    simp +decide [DataAccess.get_cost_by_service, DataAccess.inDateRange,
      DataAccess.serviceTotal, DataAccess.serviceMinCurrency, rowA, rowB,
      List.dedup, List.pwFilter, List.insertionSort, List.orderedInsert,
      aggDescRel, List.filter_cons, strMin, charListLt]
  refine ⟨⟨hs, by rw [hs]; norm_num, by rw [hs]; rfl⟩, ?_,
    total_of_mem_get_cost_by_service⟩
  intro q sd ed
  cases q with
  | error e => simp [DataAccess.get_cost_by_service]
  | ok rows =>
    simp only [DataAccess.get_cost_by_service]
    exact List.sorted_insertionSort aggDescRel _

/-- Witness for C5: the membership-to-total component applied at the
scenario input and its top row. -/
theorem c5_cost_by_service_aggregate_witness :
    ({ service := "A", total_cost := 10, currency := "USD"} : ServiceAggRow).total_cost =
      DataAccess.serviceTotal ([rowA, rowB].filter (DataAccess.inDateRange 0 2)) ("A") := by
  exact c5_cost_by_service_aggregate.2.2 [rowA, rowB] 0 2
    { service := "A", total_cost := 10, currency := "USD" }
    (by rw [c5_cost_by_service_aggregate.1.1]; exact List.mem_cons_self _ _)

/-- Helper: the per-service sum over the range-filtered records is
invariant under permutations of the stored records. -/
theorem serviceTotal_filter_perm (p : AWSCostData → Bool)
    {rows rows' : List AWSCostData} (h : List.Perm rows rows') (svc : String) :
    DataAccess.serviceTotal (rows.filter p) svc =
      DataAccess.serviceTotal (rows'.filter p) svc := by
  unfold DataAccess.serviceTotal
  exact (((h.filter p).filter _).map _).sum_eq

/-- Claim C6: for a fixed multiset of stored records the per-service totals
(and hence the grand total) of the cost-by-service aggregation are
identical for every permutation of the input, and any two aggregate rows
for the same service computed from the two orderings carry the same
total. -/
theorem c6_aggregation_permutation_invariant :
    ∀ (sd ed : Nat) (rows rows' : List AWSCostData), List.Perm rows rows' →
      (∀ svc : String,
        DataAccess.serviceTotal (rows.filter (DataAccess.inDateRange sd ed)) svc =
          DataAccess.serviceTotal (rows'.filter (DataAccess.inDateRange sd ed)) svc) ∧
      ((rows.filter (DataAccess.inDateRange sd ed)).map (fun r => r.cost)).sum =
        ((rows'.filter (DataAccess.inDateRange sd ed)).map (fun r => r.cost)).sum ∧
      (∀ agg ∈ DataAccess.get_cost_by_service (Except.ok rows) sd ed,
        ∀ agg' ∈ DataAccess.get_cost_by_service (Except.ok rows') sd ed,
        agg.service = agg'.service → agg.total_cost = agg'.total_cost) := by
  intro sd ed rows rows' h
  refine ⟨fun svc => serviceTotal_filter_perm _ h svc,
    ((h.filter _).map _).sum_eq, ?_⟩
  intro agg ha agg' ha' hs
  rw [total_of_mem_get_cost_by_service rows sd ed agg ha,
    total_of_mem_get_cost_by_service rows' sd ed agg' ha', hs,
    serviceTotal_filter_perm _ h agg'.service]

/-- Witness for C6: the scenario records in both orders yield the same
total for service A. -/
theorem c6_aggregation_permutation_invariant_witness :
    DataAccess.serviceTotal ([rowA, rowB].filter (DataAccess.inDateRange 0 2)) ("A") =
      DataAccess.serviceTotal ([rowB, rowA].filter (DataAccess.inDateRange 0 2)) ("A") := by
  exact (c6_aggregation_permutation_invariant 0 2 [rowA, rowB] [rowB, rowA]
    (by decide)).1 ("A")

/-- Helper: with a limit at least the session's row count, every row of the
session appears in the chat-history result. -/
theorem mem_get_chat_history (rows : List ChatHistoryRow) (sid limit : Nat)
    (e : ChatHistoryRow) (he : e ∈ rows) (hsid : e.session_id = sid)
    (hlim : (rows.filter (fun row => row.session_id == sid)).length ≤ limit) :
    e ∈ DataAccess.get_chat_history (Except.ok rows) sid limit := by
  have hf : e ∈ rows.filter (fun row => row.session_id == sid) :=
    List.mem_filter.mpr ⟨he, by simp [hsid]⟩
  have hperm := List.perm_insertionSort chatDescRel
    (rows.filter (fun row => row.session_id == sid))
  have hsorted : e ∈ List.insertionSort chatDescRel
      (rows.filter (fun row => row.session_id == sid)) := hperm.mem_iff.mpr hf
  have hlen : (List.insertionSort chatDescRel
      (rows.filter (fun row => row.session_id == sid))).length ≤ limit := by
    rw [hperm.length_eq]
    exact hlim
  have htake := List.take_of_length_le hlen
  simp only [DataAccess.get_chat_history]
  rw [htake]
  exact hsorted

/-- Helper: the chat-history result is always ordered most-recent-first. -/
theorem get_chat_history_sorted (q : Except String (List ChatHistoryRow))
    (sid limit : Nat) :
    List.Sorted chatDescRel (DataAccess.get_chat_history q sid limit) := by
  cases q with
  | error e => simp [DataAccess.get_chat_history]
  | ok rows =>
    simp only [DataAccess.get_chat_history]
    exact List.Pairwise.sublist (List.take_sublist _ _)
      (List.sorted_insertionSort chatDescRel _)

/-- Helper: the chat-history result never exceeds the caller's limit. -/
theorem get_chat_history_length_le (q : Except String (List ChatHistoryRow))
    (sid limit : Nat) :
    (DataAccess.get_chat_history q sid limit).length ≤ limit := by
  cases q with
  | error e => simp [DataAccess.get_chat_history]
  | ok rows =>
    simp only [DataAccess.get_chat_history]
    rw [List.length_take]
    exact min_le_left _ _

/-- Claim C8: a chat turn saved for session S with query Q and response R
is returned by a history lookup for S whenever the limit covers the
session's turns, with user_query Q and assistant_response R; the returned
list is ordered most-recent-first by created_at and never exceeds the
caller-supplied limit. -/
theorem c8_chat_history_roundtrip :
    ∀ (db : ChatDb) (sid : Nat) (q r : String) (lm : Option String)
      (tk : Option Nat) (limit : Nat),
      ((((DataAccess.save_chat_history db sid q r lm tk).rows.filter
          (fun row => row.session_id == sid)).length ≤ limit →
        ∃ e2 ∈ DataAccess.get_chat_history
            (Except.ok (DataAccess.save_chat_history db sid q r lm tk).rows)
            sid limit,
          e2.user_query = q ∧ e2.assistant_response = r) ∧
      List.Sorted chatDescRel
        (DataAccess.get_chat_history
          (Except.ok (DataAccess.save_chat_history db sid q r lm tk).rows)
          sid limit) ∧
      (DataAccess.get_chat_history
        (Except.ok (DataAccess.save_chat_history db sid q r lm tk).rows)
        sid limit).length ≤ limit) := by
  intro db sid q r lm tk limit
  refine ⟨?_, get_chat_history_sorted _ sid limit,
    get_chat_history_length_le _ sid limit⟩
  intro hlim
  refine ⟨⟨sid, q, r, lm, tk, db.clock⟩, ?_, rfl, rfl⟩
  exact mem_get_chat_history _ sid limit _
    (by simp [DataAccess.save_chat_history]) rfl hlim

/-- Witness for C8: on an empty table, a saved turn for session 1 is
returned by the lookup with query and response intact. -/
theorem c8_chat_history_roundtrip_witness :
    ∃ e2 ∈ DataAccess.get_chat_history
        (Except.ok (DataAccess.save_chat_history ⟨[], 0⟩ 1 ("Q") ("R")
          none none).rows) 1 10,
      e2.user_query = ("Q") ∧ e2.assistant_response = ("R") := by
  exact (c8_chat_history_roundtrip ⟨[], 0⟩ 1 ("Q") ("R") none none 10).1
    (by decide)

/-- Claim C10: in the open-recommendation listing, a stored open entry with
potential_savings 0 is returned with potential_savings None (the numeric
conversion is guarded by Python truthiness), while an entry with strictly
positive savings keeps its numeric value. -/
theorem c10_zero_savings_reported_none :
    ∀ (rows : List StoredRecommendation) (r : StoredRecommendation),
      r ∈ rows → r.status = ("open") →
      ((r.potential_savings = some 0 →
        ∃ it ∈ DataAccess.get_open_recommendations (Except.ok rows),
          it.id = r.id ∧ it.potential_savings = none) ∧
      (∀ v : Rat, r.potential_savings = some v → 0 < v →
        ∃ it ∈ DataAccess.get_open_recommendations (Except.ok rows),
          it.id = r.id ∧ it.potential_savings = some v)) := by
  intro rows r hr hst
  have hmem : ({ r with potential_savings := pyTruthyRat r.potential_savings }) ∈
      DataAccess.get_open_recommendations (Except.ok rows) := by
    simp only [DataAccess.get_open_recommendations]
    refine List.mem_map_of_mem _ ?_
    refine (List.perm_insertionSort savingsDescRel _).mem_iff.mpr ?_
    exact List.mem_filter.mpr ⟨hr, by simp [hst]⟩
  constructor
  · intro hz
    exact ⟨_, hmem, rfl, by simp [pyTruthyRat, hz]⟩
  · intro v hv hpos
    refine ⟨_, hmem, rfl, ?_⟩
    simp [pyTruthyRat, hv, hpos.ne']

/-- Stored open recommendation with zero potential savings, for the C10
witness. -/
def c10RecZero : StoredRecommendation :=
  { id := 1
    account_id := "111122223333"
    resource_id := some ("i-0000")
    service_name := "Amazon EC2"
    recommendation_type := "Right Size"
    description := "downsize the instance"
    potential_savings := some 0
    status := "open"
    created_at := 0 }

/-- Stored open recommendation with positive potential savings, for the
C10 witness. -/
def c10RecPos : StoredRecommendation :=
  { id := 2
    account_id := "111122223333"
    resource_id := some ("bucket-0")
    service_name := "Amazon S3"
    recommendation_type := "Storage Class Change"
    description := "move cold data"
    potential_savings := some 30
    status := "open"
    created_at := 0 }

/-- Witness for C10: in a listing over one zero-savings and one
positive-savings open entry, the zero entry is reported with None and the
positive entry with its value. -/
theorem c10_zero_savings_reported_none_witness :
    (∃ it ∈ DataAccess.get_open_recommendations (Except.ok [c10RecZero, c10RecPos]),
      it.id = 1 ∧ it.potential_savings = none) ∧
    (∃ it ∈ DataAccess.get_open_recommendations (Except.ok [c10RecZero, c10RecPos]),
      it.id = 2 ∧ it.potential_savings = some 30) := by
  constructor
  · exact (c10_zero_savings_reported_none [c10RecZero, c10RecPos] c10RecZero
      (List.mem_cons_self _ _) rfl).1 rfl
  · exact (c10_zero_savings_reported_none [c10RecZero, c10RecPos] c10RecPos
      (by simp) rfl).2 30 rfl (by norm_num)

/-- A provider response bucket carrying a negative UnblendedCost amount,
as Cost Explorer reports for credits and refunds. -/
def c4BadBucket : AWSCostManager.CEBucket AWSCostManager.DetailGroup :=
  ⟨0, 1, [⟨"Amazon EC2", "BoxUsage", -5, "USD", 1⟩]⟩

/-- Counterexample to claim C4 as stated: the billing client copies the
provider's amounts through without validation, so a response whose group
amount is negative yields an emitted record with cost < 0 even for a valid
request range. -/
theorem c4_counterexample_negative_cost :
    ∃ rec ∈ AWSCostManager.get_detailed_cost_data [c4BadBucket], rec.cost < 0 := by
  refine ⟨⟨0, 1, "Amazon EC2", "BoxUsage", -5, 1, "USD"⟩, by decide, by decide⟩

/-- Claim C4 (amended): the billing client emits exactly one record per
(time-bucket, grouping-key) pair of the provider response, and whenever
every response bucket satisfies Start ≤ End and every group amount is
non-negative, each emitted record satisfies start_date ≤ end_date and
cost ≥ 0; the client itself performs no validation. -/
theorem c4_amended_records_bounded_by_response :
    (∀ resp : List (AWSCostManager.CEBucket AWSCostManager.DetailGroup),
      (∀ tp ∈ resp, tp.periodStart ≤ tp.periodEnd) →
      (∀ tp ∈ resp, ∀ g ∈ tp.groups, 0 ≤ g.amount) →
      ∀ rec ∈ AWSCostManager.get_detailed_cost_data resp,
        rec.start_date ≤ rec.end_date ∧ 0 ≤ rec.cost) ∧
    (∀ resp : List (AWSCostManager.CEBucket AWSCostManager.DetailGroup),
      (AWSCostManager.get_detailed_cost_data resp).length =
        (resp.map (fun tp => tp.groups.length)).sum) ∧
    (∀ resp : List (AWSCostManager.CEBucket AWSCostManager.SingleGroup),
      (∀ tp ∈ resp, ∀ g ∈ tp.groups, 0 ≤ g.amount) →
      ∀ rec ∈ AWSCostManager.get_cost_by_service resp, 0 ≤ rec.cost) ∧
    (∀ resp : List (AWSCostManager.CEBucket AWSCostManager.SingleGroup),
      (AWSCostManager.get_cost_by_service resp).length =
        (resp.map (fun tp => tp.groups.length)).sum) := by
  refine ⟨?_, ?_, ?_, ?_⟩
  · intro resp hd ha rec hrec
    simp only [AWSCostManager.get_detailed_cost_data, List.mem_flatten,
      List.mem_map] at hrec
    obtain ⟨l, ⟨tp, htp, rfl⟩, hrecl⟩ := hrec
    obtain ⟨g, hg, rfl⟩ := List.mem_map.mp hrecl
    exact ⟨hd tp htp, ha tp htp g hg⟩
  · intro resp
    simp only [AWSCostManager.get_detailed_cost_data, List.length_flatten,
      List.map_map]
    refine congrArg List.sum (List.map_congr_left ?_)
    intro tp _
    simp
  · intro resp ha rec hrec
    simp only [AWSCostManager.get_cost_by_service, List.mem_flatten,
      List.mem_map] at hrec
    obtain ⟨l, ⟨tp, htp, rfl⟩, hrecl⟩ := hrec
    obtain ⟨g, hg, rfl⟩ := List.mem_map.mp hrecl
    exact ha tp htp g hg
  · intro resp
    simp only [AWSCostManager.get_cost_by_service, List.length_flatten,
      List.map_map]
    refine congrArg List.sum (List.map_congr_left ?_)
    intro tp _
    simp

/-- A well-formed provider response bucket for the C4 witness. -/
def c4GoodBucket : AWSCostManager.CEBucket AWSCostManager.DetailGroup :=
  ⟨3, 4, [⟨"Amazon S3", "TimedStorage", 7, "USD", 2⟩]⟩

/-- The record the billing client emits for c4GoodBucket. -/
def c4GoodRec : AWSCostManager.DetailedCostRecord :=
  ⟨3, 4, "Amazon S3", "TimedStorage", 7, 2, "USD"⟩

/-- Witness for C4 (amended): on a well-formed one-bucket response the
emitted record has ordered dates and non-negative cost. -/
theorem c4_amended_records_bounded_by_response_witness :
    c4GoodRec.start_date ≤ c4GoodRec.end_date ∧ 0 ≤ c4GoodRec.cost := by
  exact c4_amended_records_bounded_by_response.1 [c4GoodBucket]
    (by decide) (by decide) c4GoodRec (by decide)
